import Mathlib

/-!
# Speed planner node: planning cycle and cross-cycle memory

A shallow embedding of `src/speed_planner_node.cpp` (the ROS node of the
speed planner): the sensor callbacks, `objectsCallback` and the periodic
`timerCallback`, as functions on an explicit node state.

Conventions of the embedding

* `double` is embedded as `ℚ` (exact arithmetic); the only places where
  IEEE special values matter (`x / 0`, `sqrt` of a negative number inside
  `std::min`) are made explicit in `desiredSpeed`.
* A `boost::shared_ptr`/`unique_ptr` member that may be null is an `Option`.
* Reading a vector element past its end is undefined behaviour in C++; the
  embedding reports it as `Except.error (Fault.outOfRange ..)`.
* Code of the repository that is not part of `speed_planner_node.cpp`
  (`TrajectoryLoader`, `getNearestId`, `CollisionChecker::check`,
  `ConvexSpeedOptimizer::calcOptimizedSpeed`) and library calls (`sqrt`,
  `tf2` lookups) are taken as parameters, collected in `Env`.
-/

namespace SpeedPlanner

/-! ## Messages -/

/-- Message `geometry_msgs::Point`. -/
structure Point where
  x : ℚ := 0
  y : ℚ := 0
  z : ℚ := 0
  deriving DecidableEq

/-- Message `geometry_msgs::Quaternion`. -/
structure Quaternion where
  x : ℚ := 0
  y : ℚ := 0
  z : ℚ := 0
  w : ℚ := 0
  deriving DecidableEq

/-- Message `geometry_msgs::Vector3`. -/
structure Vector3 where
  x : ℚ := 0
  y : ℚ := 0
  z : ℚ := 0
  deriving DecidableEq

/-- Message `std_msgs::Header`. -/
structure Header where
  seq : Nat := 0
  stamp : Nat := 0
  frame_id : String := ""
  deriving DecidableEq

/-- Message `geometry_msgs::Pose`. -/
structure Pose where
  position : Point := {}
  orientation : Quaternion := {}
  deriving DecidableEq

/-- Message `geometry_msgs::PoseStamped`. -/
structure PoseStamped where
  header : Header := {}
  pose : Pose := {}
  deriving DecidableEq

/-- Message `geometry_msgs::Twist`. -/
structure Twist where
  linear : Vector3 := {}
  angular : Vector3 := {}
  deriving DecidableEq

/-- Message `geometry_msgs::TwistStamped`. -/
structure TwistStamped where
  header : Header := {}
  twist : Twist := {}
  deriving DecidableEq

/-- Message `autoware_msgs::Waypoint`, with the fields the node touches. -/
structure Waypoint where
  pose : PoseStamped := {}
  twist : TwistStamped := {}
  deriving DecidableEq

/-- Message `autoware_msgs::Lane`. -/
structure Lane where
  header : Header := {}
  increment : Int := 0
  lane_id : Int := 0
  waypoints : List Waypoint := []
  lane_index : Nat := 0
  cost : ℚ := 0
  closest_object_distance : ℚ := 0
  closest_object_velocity : ℚ := 0
  is_blocked : Bool := false
  deriving DecidableEq

/-- Message `autoware_msgs::DetectedObject`, with the fields the node touches. -/
structure DetectedObject where
  header : Header := {}
  pose : Pose := {}
  dimensions : Vector3 := {}
  velocity : Twist := {}
  deriving DecidableEq

/-- Message `autoware_msgs::DetectedObjectArray`. -/
structure DetectedObjectArray where
  header : Header := {}
  objects : List DetectedObject := []
  deriving DecidableEq

/-- Message `autoware_msgs::VehicleStatus`; the node stores it and never reads it. -/
structure VehicleStatus where
  header : Header := {}
  speed : ℚ := 0
  deriving DecidableEq

/-- Message `geometry_msgs::TransformStamped`. -/
structure TransformStamped where
  header : Header := {}
  child_frame_id : String := ""
  translation : Vector3 := {}
  rotation : Quaternion := {}
  deriving DecidableEq

/-! ## Planner data -/

/-- One sample of the resampled path. -/
structure TrajectoryPoint where
  x : ℚ
  y : ℚ
  yaw : ℚ
  curvature : ℚ
  deriving DecidableEq

/-- Modelled from the spec: class `TrajectoryLoader` (its header is not part of
the sources at hand). The spec gives the trajectory as an ordered sequence of
`N` points, each carrying `(x, y, yaw, curvature)`, all per-point arrays having
the same length `N`; the arrays `x_`, `y_`, `yaw_`, `curvature_` are the
projections of that sequence and `size()` is `N`. -/
structure TrajectoryLoader where
  points : List TrajectoryPoint
  deriving DecidableEq

/-- Member `x_` of the resampled trajectory. -/
def TrajectoryLoader.x_ (t : TrajectoryLoader) : List ℚ := t.points.map (·.x)

/-- Member `y_` of the resampled trajectory. -/
def TrajectoryLoader.y_ (t : TrajectoryLoader) : List ℚ := t.points.map (·.y)

/-- Member `yaw_` of the resampled trajectory. -/
def TrajectoryLoader.yaw_ (t : TrajectoryLoader) : List ℚ := t.points.map (·.yaw)

/-- Member `curvature_` of the resampled trajectory. -/
def TrajectoryLoader.curvature_ (t : TrajectoryLoader) : List ℚ := t.points.map (·.curvature)

/-- Method `size()` of the resampled trajectory. -/
def TrajectoryLoader.size (t : TrajectoryLoader) : Nat := t.points.length

/-- Class `Trajectory`, built by `Trajectory(x_, y_, result)` at the end of a
successful cycle and kept in `previous_trajectory_`. -/
structure Trajectory where
  x_ : List ℚ
  y_ : List ℚ
  velocity_ : List ℚ
  deriving DecidableEq

/-- Class `Obstacle` as filled in by `timerCallback`. -/
structure Obstacle where
  x_ : ℚ
  y_ : ℚ
  radius_ : ℚ
  translational_velocity_ : ℚ
  deriving DecidableEq

/-- Class `VehicleInfo`: `VehicleInfo(length, width, wheel_base, safety_distance)`. -/
structure VehicleInfo where
  length : ℚ
  width : ℚ
  wheel_base : ℚ
  safety_distance : ℚ
  deriving DecidableEq

/-- Class `ConvexSpeedOptimizer` as constructed by the node:
`ConvexSpeedOptimizer(previewDistance, ds, mass, mu, weight)`. -/
structure ConvexSpeedOptimizer where
  previewDistance_ : ℚ
  ds_ : ℚ
  mass_ : ℚ
  mu_ : ℚ
  weight_ : List ℚ
  deriving DecidableEq

/-- The arguments of one call
`calcOptimizedSpeed(trajectory, result, Vr, Vd, Arlon, Arlat, Aclon, Aclat, v0, a0,
collisionTime, collisionDistance, safeTime)`. -/
structure OptimizerCall where
  trajectory : TrajectoryLoader
  result : List ℚ
  Vr : List ℚ
  Vd : List ℚ
  Arlon : List ℚ
  Arlat : List ℚ
  Aclon : List ℚ
  Aclat : List ℚ
  v0 : ℚ
  a0 : ℚ
  collisionTime : ℚ
  collisionDistance : ℚ
  safeTime : ℚ
  deriving DecidableEq

/-- What the node publishes, by topic. -/
inductive Output where
  | final_waypoints (lane : Lane)
  | desired_velocity (twist : Twist)
  | curvature (data : ℚ)
  deriving DecidableEq

/-- The vectors that the node indexes. -/
inductive Vec where
  | waypoints
  | velocity_
  | result
  | x_
  | curvature_
  deriving DecidableEq

/-- Undefined behaviour the cycle can run into. -/
inductive Fault where
  | outOfRange (vec : Vec) (index : Int)
  deriving DecidableEq

/-- Read of `xs[i]` with an unsigned index. -/
def readAt {α : Type} (vec : Vec) (xs : List α) (i : Nat) : Except Fault α :=
  match xs[i]? with
  | some a => .ok a
  | none => .error (.outOfRange vec i)

/-- Read of `xs[i]` with an `int` index. -/
def readAtInt {α : Type} (vec : Vec) (xs : List α) (i : Int) : Except Fault α :=
  if 0 ≤ i then readAt vec xs i.toNat else .error (.outOfRange vec i)

/-- Loop `for (i = start; i < start + n; ++i)` whose body `f i` yields one
element per round; the first fault ends the loop. -/
def tabulateM {α : Type} (f : Nat → Except Fault α) : Nat → Nat → Except Fault (List α)
  | 0, _ => .ok []
  | n + 1, i =>
    match f i with
    | .error e => .error e
    | .ok a =>
      match tabulateM f n (i + 1) with
      | .error e => .error e
      | .ok rest => .ok (a :: rest)

/-! ## Collaborators outside `speed_planner_node.cpp` -/

/-- The code the node calls and that lives outside `speed_planner_node.cpp`. -/
structure Env where
  /-- Constructor `TrajectoryLoader(current_x, current_y, waypoint_x, waypoint_y,
  ds, previewDistance, skip_size, smooth_size)`. -/
  newTrajectoryLoader : ℚ → ℚ → List ℚ → List ℚ → ℚ → ℚ → Int → Int → TrajectoryLoader
  /-- Function `getNearestId(current_x, current_y, x_, y_, 2)`. -/
  getNearestId : ℚ → ℚ → List ℚ → List ℚ → Int → Int
  /-- Method `CollisionChecker::check(trajectory, obstacles, ego_vehicle_ptr_, result)`:
  the returned flag and the pair written through the reference. -/
  check : TrajectoryLoader → List Obstacle → VehicleInfo → Bool × (ℚ × ℚ)
  /-- Method `ConvexSpeedOptimizer::calcOptimizedSpeed`: the returned flag and
  the content of `result` after the call. -/
  calcOptimizedSpeed : ConvexSpeedOptimizer → OptimizerCall → Bool × List ℚ
  /-- Library function `std::sqrt` on non-negative arguments. -/
  sqrt : ℚ → ℚ
  /-- Library function `tf::createQuaternionMsgFromYaw`. -/
  createQuaternionMsgFromYaw : ℚ → Quaternion
  /-- Call `tf2_buffer_ptr_->lookupTransform(target, source, ros::Time(0))`;
  `none` when it throws `tf2::TransformException`. -/
  lookupTransform : String → String → Option TransformStamped
  /-- Library function `tf2::doTransform` on a stamped pose. -/
  doTransform : PoseStamped → TransformStamped → PoseStamped

/-! ## The node -/

/-- ROS parameters read by the constructor. -/
structure Params where
  mass : ℚ := 1500.0
  mu : ℚ := 0.8
  ds : ℚ := 0.1
  preview_distance : ℚ := 20.0
  curvature_weight : ℚ := 20.0
  decay_factor : ℚ := 0.8
  time_weight : ℚ := 0.0
  smooth_weight : ℚ := 15.0
  velocity_weight : ℚ := 0.001
  longitudinal_slack_weight : ℚ := 1.0
  lateral_slack_weight : ℚ := 10.0
  lateral_g : ℚ := 0.4
  skip_size : Int := 10
  smooth_size : Int := 50
  vehicle_length : ℚ := 5.0
  vehicle_width : ℚ := 1.895
  vehicle_wheel_base : ℚ := 2.790
  vehicle_safety_distance : ℚ := 0.1
  deriving DecidableEq

/-- Members of class `SpeedPlannerNode` (publishers, subscribers and the timer
handle apart). -/
structure SpeedPlannerNode where
  isInitialize_ : Bool
  timer_callback_dt_ : ℚ
  previous_trajectory_ : Option Trajectory
  previousVelocity_ : ℚ
  curvatureWeight_ : ℚ
  decayFactor_ : ℚ
  lateral_g_ : ℚ
  skip_size_ : Int
  smooth_size_ : Int
  speedOptimizer_ : ConvexSpeedOptimizer
  ego_vehicle_ptr_ : Option VehicleInfo
  in_lane_ptr_ : Option Lane
  in_pose_ptr_ : Option PoseStamped
  in_twist_ptr_ : Option TwistStamped
  in_status_ptr_ : Option VehicleStatus
  in_objects_ptr_ : Option DetectedObjectArray
  deriving DecidableEq

/-- Constructor `SpeedPlannerNode::SpeedPlannerNode()` (lines 12-59).
`previousVelocity_` is not in the initialiser list: it starts with whatever
value `previousVelocity_` the memory holds. -/
def newSpeedPlannerNode (p : Params) (previousVelocity_ : ℚ) : SpeedPlannerNode where
  isInitialize_ := false
  timer_callback_dt_ := 0.1
  previous_trajectory_ := none
  previousVelocity_ := previousVelocity_
  curvatureWeight_ := p.curvature_weight
  decayFactor_ := p.decay_factor
  lateral_g_ := p.lateral_g
  skip_size_ := p.skip_size
  smooth_size_ := p.smooth_size
  speedOptimizer_ :=
    { previewDistance_ := p.preview_distance
      ds_ := p.ds
      mass_ := p.mass
      mu_ := p.mu
      weight_ := [p.time_weight, p.smooth_weight, p.velocity_weight,
        p.longitudinal_slack_weight, p.lateral_slack_weight] }
  ego_vehicle_ptr_ :=
    some { length := p.vehicle_length
           width := p.vehicle_width
           wheel_base := p.vehicle_wheel_base
           safety_distance := p.vehicle_safety_distance }
  in_lane_ptr_ := none
  in_pose_ptr_ := none
  in_twist_ptr_ := none
  in_status_ptr_ := none
  in_objects_ptr_ := none

/-- Callback `waypointsCallback` (lines 61-64). -/
def waypointsCallback (s : SpeedPlannerNode) (msg : Lane) : SpeedPlannerNode :=
  { s with in_lane_ptr_ := some msg }

/-- Callback `currentPoseCallback` (lines 66-69). -/
def currentPoseCallback (s : SpeedPlannerNode) (msg : PoseStamped) : SpeedPlannerNode :=
  { s with in_pose_ptr_ := some msg }

/-- Callback `currentVelocityCallback` (lines 71-75). -/
def currentVelocityCallback (s : SpeedPlannerNode) (msg : TwistStamped) : SpeedPlannerNode :=
  { s with in_twist_ptr_ := some msg }

/-- Callback `currentStatusCallback` (lines 77-80). -/
def currentStatusCallback (s : SpeedPlannerNode) (msg : VehicleStatus) : SpeedPlannerNode :=
  { s with in_status_ptr_ := some msg }

/-- Body of the loop at lines 108-117: the object is re-framed and its pose is
transformed. -/
def transformObject (env : Env) (frame_id : String) (objects2map_tf : TransformStamped)
    (object : DetectedObject) : DetectedObject :=
  let header : Header := { object.header with frame_id := frame_id }
  let current_object_pose : PoseStamped := { header := header, pose := object.pose }
  let transformed_pose := env.doTransform current_object_pose objects2map_tf
  { object with header := header, pose := transformed_pose.pose }

/-- Callback `objectsCallback` (lines 82-119). -/
def objectsCallback (env : Env) (s : SpeedPlannerNode) (msg : DetectedObjectArray) :
    SpeedPlannerNode :=
  match s.in_lane_ptr_ with
  | none => s
  | some lane =>
    if msg.objects.length = 0 then s
    else
      match env.lookupTransform lane.header.frame_id msg.header.frame_id with
      | none => s
      | some objects2map_tf =>
        { s with
          in_objects_ptr_ := some
            { header := { msg.header with frame_id := lane.header.frame_id }
              objects := msg.objects.map
                (transformObject env lane.header.frame_id objects2map_tf) } }

/-! ## The planning cycle -/

/-- The right-hand side of line 152,
`std::min(Vr[i]-0.1, std::sqrt(lateral_g_/(std::fabs(trajectory.curvature_[i]+1e-6))))`:
the argument of `std::fabs`. -/
def comfortDenominator (curvature : ℚ) : ℚ := |curvature + 1e-6|

/-- The value assigned to `Vd[i]` at line 152. When the denominator is zero
the quotient is an IEEE infinity or NaN, and when the quotient is negative its
square root is NaN; `std::min(a, b)` returns `a` unless `b < a`, so in those
cases the result is `Vr[i]-0.1`. -/
def desiredSpeed (sqrt : ℚ → ℚ) (lateral_g_ Vr curvature : ℚ) : ℚ :=
  if comfortDenominator curvature = 0 then Vr - 0.1
  else if lateral_g_ / comfortDenominator curvature < 0 then Vr - 0.1
  else min (Vr - 0.1) (sqrt (lateral_g_ / comfortDenominator curvature))

/-- The obstacle built from one detected object (lines 204-209). -/
def toObstacle (env : Env) (object : DetectedObject) : Obstacle where
  x_ := object.pose.position.x
  y_ := object.pose.position.y
  radius_ := env.sqrt (object.dimensions.x ^ 2 + object.dimensions.y ^ 2)
  translational_velocity_ := object.velocity.linear.x

/-- Step 3, first half (lines 166-177): the value of the local `v0` after the
`if`. With no previous trajectory the assignment goes to a second variable
`double v0` declared in the branch, and the outer `v0` keeps the value
`indeterminate` it had when it was declared without initialiser. -/
def initialVelocity (env : Env) (indeterminate : ℚ) (previous_trajectory_ : Option Trajectory)
    (twist : TwistStamped) (current_x current_y : ℚ) : Except Fault ℚ :=
  match previous_trajectory_ with
  | none =>
    -- `double v0 = in_twist_ptr_->twist.linear.x;` is a variable of its own, dead at once
    let _v0 : ℚ := twist.twist.linear.x
    .ok indeterminate
  | some prev =>
    readAtInt .velocity_ prev.velocity_
      (env.getNearestId current_x current_y prev.x_ prev.y_ 2)

/-- Step 3, second half (lines 181-191): `a0` and the node after the update of
`isInitialize_` and `previousVelocity_`. -/
def initialAcceleration (s : SpeedPlannerNode) (v0 : ℚ) : ℚ × SpeedPlannerNode :=
  if !s.isInitialize_ then
    (0, { s with isInitialize_ := true, previousVelocity_ := v0 })
  else
    ((v0 - s.previousVelocity_) / s.timer_callback_dt_, { s with previousVelocity_ := v0 })

/-- Step 4 (lines 193-213): `is_collide` and `collision_time_distance_result`. -/
def dynamicObstacles (env : Env) (in_objects_ptr_ : Option DetectedObjectArray)
    (trajectory : TrajectoryLoader) (ego : VehicleInfo) : Bool × (ℚ × ℚ) :=
  match in_objects_ptr_ with
  | none => (false, (0, 0))
  | some objects =>
    if !objects.objects.isEmpty then
      env.check trajectory (objects.objects.map (toObstacle env)) ego
    else (false, (0, 0))

/-- The locals of `timerCallback` when it reaches line 229, and the node at
that point. -/
structure Prepared where
  trajectory : TrajectoryLoader
  N : Nat
  Vr : List ℚ
  Vd : List ℚ
  Arlon : List ℚ
  Arlat : List ℚ
  Aclon : List ℚ
  Aclat : List ℚ
  v0 : ℚ
  a0 : ℚ
  safeTime : ℚ
  is_collide : Bool
  collision_time_distance_result : ℚ × ℚ
  collisionTime : ℚ
  collisionDistance : ℚ
  node : SpeedPlannerNode

/-- Lines 125-224 of `timerCallback`: steps 1 to 4, entered with all four
pointers of line 123 set. -/
def prepare (env : Env) (indeterminate : ℚ) (s : SpeedPlannerNode) (lane : Lane)
    (twist : TwistStamped) (ego : VehicleInfo) (pose : PoseStamped) : Except Fault Prepared :=
  let waypoint_x := lane.waypoints.map (·.pose.pose.position.x)
  let waypoint_y := lane.waypoints.map (·.pose.pose.position.y)
  let current_x := pose.pose.position.x
  let current_y := pose.pose.position.y
  let trajectory := env.newTrajectoryLoader current_x current_y waypoint_x waypoint_y
    s.speedOptimizer_.ds_ s.speedOptimizer_.previewDistance_ s.skip_size_ s.smooth_size_
  let N := trajectory.size
  let Vr : List ℚ := List.replicate N 5.0
  let Vd : List ℚ := trajectory.curvature_.map (desiredSpeed env.sqrt s.lateral_g_ 5.0)
  let mu := s.speedOptimizer_.mu_
  let Arlon := List.replicate N (0.5 * mu * 9.83)
  let Arlat := List.replicate N (0.5 * mu * 9.83)
  let Aclon := List.replicate N (0.4 * mu * 9.83)
  let Aclat := List.replicate N (0.4 * mu * 9.83)
  match initialVelocity env indeterminate s.previous_trajectory_ twist current_x current_y with
  | .error e => .error e
  | .ok v0 =>
    let step3 := initialAcceleration s v0
    let step4 := dynamicObstacles env s.in_objects_ptr_ trajectory ego
    .ok { trajectory := trajectory, N := N, Vr := Vr, Vd := Vd, Arlon := Arlon, Arlat := Arlat,
          Aclon := Aclon, Aclat := Aclat, v0 := v0, a0 := step3.1, safeTime := 10.0,
          is_collide := step4.1,
          collision_time_distance_result := step4.2,
          collisionTime := 0.0, collisionDistance := 0.0, node := step3.2 }

/-- The call at line 229. -/
def optimizerCall (p : Prepared) : OptimizerCall where
  trajectory := p.trajectory
  result := List.replicate p.N 0.0
  Vr := p.Vr
  Vd := p.Vd
  Arlon := p.Arlon
  Arlat := p.Arlat
  Aclon := p.Aclon
  Aclat := p.Aclat
  v0 := p.v0
  a0 := p.a0
  collisionTime := p.collisionTime
  collisionDistance := p.collisionDistance
  safeTime := p.safeTime

/-- The waypoint filled in at lines 248-255 from the trajectory point, the
clipped velocity `r` and the first waypoint of the incoming lane. -/
def makeWaypoint (env : Env) (lane : Lane) (first : Waypoint) (pt : TrajectoryPoint) (r : ℚ) :
    Waypoint where
  pose :=
    { header := lane.header
      pose :=
        { position := { x := pt.x, y := pt.y, z := first.pose.pose.position.z }
          orientation := env.createQuaternionMsgFromYaw pt.yaw } }
  twist :=
    { header := lane.header
      twist := { linear := { x := r } } }

/-- Body of the loop at lines 244-258 for index `i`: the clipped `result[i]`
and the waypoint pushed back. -/
def setWaypoint (env : Env) (lane : Lane) (trajectory : TrajectoryLoader) (result : List ℚ)
    (i : Nat) : Except Fault (ℚ × Waypoint) :=
  match readAt .result result i with
  | .error e => .error e
  | .ok r =>
    let r := min r 4.9
    match readAt .x_ trajectory.points i with
    | .error e => .error e
    | .ok pt =>
      match readAt .waypoints lane.waypoints 0 with
      | .error e => .error e
      | .ok first => .ok (r, makeWaypoint env lane first pt r)

/-- Lines 232-273 of `timerCallback`: step 5, after a successful solve that
left `result` in the vector. -/
def setResult (env : Env) (lane : Lane) (p : Prepared) (result : List ℚ) :
    Except Fault (SpeedPlannerNode × List Output) :=
  match tabulateM (setWaypoint env lane p.trajectory result) p.N 0 with
  | .error e => .error e
  | .ok waypoints =>
    let result := waypoints.map (·.1) ++ result.drop p.N
    let speedOptimizedLane : Lane :=
      { lane_id := lane.lane_id
        lane_index := lane.lane_index
        is_blocked := lane.is_blocked
        increment := lane.increment
        header := lane.header
        cost := lane.cost
        closest_object_distance := lane.closest_object_distance
        closest_object_velocity := lane.closest_object_velocity
        waypoints := waypoints.map (·.2) }
    let desired_velocity : List Output :=
      match result with
      | [] => []
      | r0 :: _ => [.desired_velocity { linear := { x := r0 } }]
    let node : SpeedPlannerNode :=
      { p.node with
        previous_trajectory_ := some
          { x_ := p.trajectory.x_, y_ := p.trajectory.y_, velocity_ := result } }
    match readAt .curvature_ p.trajectory.curvature_ 0 with
    | .error e => .error e
    | .ok curvature =>
      .ok (node, desired_velocity ++ [.final_waypoints speedOptimizedLane, .curvature curvature])

/-- The lane published at line 268 for the clipped profile `velocity`. -/
def publishedLane (env : Env) (lane : Lane) (first : Waypoint) (trajectory : TrajectoryLoader)
    (velocity : List ℚ) : Lane :=
  { lane with
    waypoints := List.zipWith (makeWaypoint env lane first) trajectory.points velocity }

/-- Callback `timerCallback` (lines 121-276) for one timer event. `indeterminate`
is the value the uninitialised local `v0` of line 166 starts with. The result
is the node after the callback and the messages published, in order. -/
def timerCallback (env : Env) (indeterminate : ℚ) (s : SpeedPlannerNode) :
    Except Fault (SpeedPlannerNode × List Output) :=
  match s.in_lane_ptr_, s.in_twist_ptr_, s.ego_vehicle_ptr_, s.in_pose_ptr_ with
  | some lane, some twist, some ego, some pose =>
    match prepare env indeterminate s lane twist ego pose with
    | .error e => .error e
    | .ok p =>
      let solve := env.calcOptimizedSpeed s.speedOptimizer_ (optimizerCall p)
      if !solve.1 then .ok (p.node, [])
      else setResult env lane p solve.2
  | _, _, _, _ => .ok (s, [])

/-- The call of line 229 that `timerCallback` makes in this cycle: `none` when
the guard of line 123 skips the cycle. -/
def optimizerInvocation (env : Env) (indeterminate : ℚ) (s : SpeedPlannerNode) :
    Except Fault (Option OptimizerCall) :=
  match s.in_lane_ptr_, s.in_twist_ptr_, s.ego_vehicle_ptr_, s.in_pose_ptr_ with
  | some lane, some twist, some ego, some pose =>
    match prepare env indeterminate s lane twist ego pose with
    | .error e => .error e
    | .ok p => .ok (some (optimizerCall p))
  | _, _, _, _ => .ok none

/-- The value of the local `is_collide` at line 215 of this cycle: `none` when
the guard of line 123 skips the cycle. -/
def collisionVerdict (env : Env) (indeterminate : ℚ) (s : SpeedPlannerNode) :
    Except Fault (Option (Bool × (ℚ × ℚ))) :=
  match s.in_lane_ptr_, s.in_twist_ptr_, s.ego_vehicle_ptr_, s.in_pose_ptr_ with
  | some lane, some twist, some ego, some pose =>
    match prepare env indeterminate s lane twist ego pose with
    | .error e => .error e
    | .ok p => .ok (some (p.is_collide, p.collision_time_distance_result))
  | _, _, _, _ => .ok none

/-- The cross-cycle memory of the node: the stored plan, the remembered
velocity and the initialised flag. -/
def memory (s : SpeedPlannerNode) : Option Trajectory × ℚ × Bool :=
  (s.previous_trajectory_, s.previousVelocity_, s.isInitialize_)

/-! ## The callback queue -/

/-- One callback invocation of the single-threaded `ros::spin()`. -/
inductive Event where
  | waypoints (msg : Lane)
  | currentPose (msg : PoseStamped)
  | currentVelocity (msg : TwistStamped)
  | currentStatus (msg : VehicleStatus)
  | objects (msg : DetectedObjectArray)
  | timer (indeterminate : ℚ)

/-- The callback an event runs. -/
def dispatch (env : Env) (s : SpeedPlannerNode) : Event →
    Except Fault (SpeedPlannerNode × List Output)
  | .waypoints msg => .ok (waypointsCallback s msg, [])
  | .currentPose msg => .ok (currentPoseCallback s msg, [])
  | .currentVelocity msg => .ok (currentVelocityCallback s msg, [])
  | .currentStatus msg => .ok (currentStatusCallback s msg, [])
  | .objects msg => .ok (objectsCallback env s msg, [])
  | .timer indeterminate => timerCallback env indeterminate s

/-- Function `ros::spin()` over a finite queue of callbacks: the node at the
end and everything published on the way. -/
def spin (env : Env) : SpeedPlannerNode → List Event →
    Except Fault (SpeedPlannerNode × List Output)
  | s, [] => .ok (s, [])
  | s, e :: es =>
    match dispatch env s e with
    | .error f => .error f
    | .ok (s1, out1) =>
      match spin env s1 es with
      | .error f => .error f
      | .ok (s2, out2) => .ok (s2, out1 ++ out2)

/-! ## A concrete scenario

A straight path: the loader keeps the waypoints as they are, with zero yaw and
curvature, the nearest point is always the first one, the collision checker
reports a conflict at time 3 and distance 13 as soon as there is an obstacle,
the optimizer answers with a fixed verdict and profile, and the only frame
with a known transform is `velodyne`. -/

/-- The trajectory made of the lane points, with zero yaw and curvature. -/
def straightTrajectory (waypoint_x waypoint_y : List ℚ) : TrajectoryLoader where
  points := List.zipWith (fun x y => { x := x, y := y, yaw := 0, curvature := 0 })
    waypoint_x waypoint_y

/-- A rational stand-in for the square root: six Newton steps. -/
def newtonSqrt (q : ℚ) : ℚ :=
  if q ≤ 0 then 0 else (fun x => (x + q / x) / 2)^[6] ((q + 1) / 2)

/-- The collaborators of the straight-path scenario. -/
def scenarioEnv (solved : Bool) (profile : List ℚ) : Env where
  newTrajectoryLoader := fun _ _ waypoint_x waypoint_y _ _ _ _ =>
    straightTrajectory waypoint_x waypoint_y
  getNearestId := fun _ _ _ _ _ => 0
  check := fun _ obstacles _ => (!obstacles.isEmpty, (3, 13))
  calcOptimizedSpeed := fun _ _ => (solved, profile)
  sqrt := newtonSqrt
  createQuaternionMsgFromYaw := fun _ => { w := 1 }
  lookupTransform := fun _ source => if source = "velodyne" then some {} else none
  doTransform := fun pose _ => pose

/-- A lane in frame `map` with a single waypoint at the origin. -/
def onePointLane : Lane where
  header := { frame_id := "map" }
  waypoints := [{}]

/-- A velocity message with `twist.linear.x = m`. -/
def measured (m : ℚ) : TwistStamped where
  twist := { linear := { x := m } }

/-- The node right after construction with default parameters, once a lane, a
pose and a measured velocity `m` have arrived; `previousVelocity_` starts at 0. -/
def coldNode (lane : Lane) (m : ℚ) : SpeedPlannerNode :=
  currentVelocityCallback
    (currentPoseCallback (waypointsCallback (newSpeedPlannerNode {} 0) lane) {})
    (measured m)

/-- Ego vehicle built by the constructor from the default parameters. -/
def defaultEgo : VehicleInfo where
  length := 5.0
  width := 1.895
  wheel_base := 2.790
  safety_distance := 0.1

/-- The locals at line 229 in the first cycle of `coldNode onePointLane m`, when
the uninitialised `v0` holds `u`. -/
def coldPrepared (m u : ℚ) : Prepared where
  trajectory := straightTrajectory [0] [0]
  N := 1
  Vr := [5.0]
  Vd := [desiredSpeed newtonSqrt 0.4 5.0 0]
  Arlon := [0.5 * 0.8 * 9.83]
  Arlat := [0.5 * 0.8 * 9.83]
  Aclon := [0.4 * 0.8 * 9.83]
  Aclat := [0.4 * 0.8 * 9.83]
  v0 := u
  a0 := 0
  safeTime := 10.0
  is_collide := false
  collision_time_distance_result := (0, 0)
  collisionTime := 0.0
  collisionDistance := 0.0
  node := { coldNode onePointLane m with isInitialize_ := true, previousVelocity_ := u }

/-- The node after the first cycle of `coldNode onePointLane m` in which the
uninitialised `v0` held `u` and the optimizer answered `[3]`. -/
def warmNode (m u : ℚ) : SpeedPlannerNode :=
  { (coldPrepared m u).node with
    previous_trajectory_ := some { x_ := [0], y_ := [0], velocity_ := [3] } }

/-- What that first cycle publishes. -/
def firstOutputs : List Output :=
  [.desired_velocity { linear := { x := 3 } },
    .final_waypoints
      { onePointLane with
        waypoints :=
          [{ pose := { header := onePointLane.header, pose := { orientation := { w := 1 } } }
             twist := { header := onePointLane.header, twist := { linear := { x := 3 } } } }] },
    .curvature 0]

/-- A detection message with a single object, stamped with frame `frame_id`. -/
def oneObject (frame_id : String) : DetectedObjectArray where
  header := { frame_id := frame_id }
  objects := [{ dimensions := { x := 3, y := 4 } }]

/-- The comfort denominator as the specification words it:
`|curvature[i]| + epsilon` with `epsilon = 1e-6`. -/
def specComfortDenominator (curvature : ℚ) : ℚ := |curvature| + 1e-6

/-- The startup queue of the scenario: a lane, a pose and a measured velocity
arrive, then the timer fires with the uninitialised `v0` holding `u`. -/
def startupQueue (u : ℚ) : List Event :=
  [.waypoints onePointLane, .currentPose {}, .currentVelocity (measured 1), .timer u]

/-- What holds of the node between callbacks: the ego vehicle is set, and a
stored plan comes with `isInitialize_`. -/
def Steady (s : SpeedPlannerNode) : Prop :=
  s.ego_vehicle_ptr_.isSome = true ∧
    (s.previous_trajectory_.isSome = true → s.isInitialize_ = true)

/-! ## Facts about the stages of the cycle -/

theorem prepare_eq (env : Env) (u : ℚ) (s : SpeedPlannerNode) (lane : Lane)
    (twist : TwistStamped) (ego : VehicleInfo) (pose : PoseStamped) (p : Prepared)
    (h : prepare env u s lane twist ego pose = .ok p) :
    initialVelocity env u s.previous_trajectory_ twist pose.pose.position.x
        pose.pose.position.y = .ok p.v0 ∧
      p.node = { s with isInitialize_ := true, previousVelocity_ := p.v0 } ∧
      p.a0 = (if s.isInitialize_ then (p.v0 - s.previousVelocity_) / s.timer_callback_dt_
        else 0) ∧
      p.N = p.trajectory.points.length ∧
      p.Vr = List.replicate p.N 5 ∧
      p.collisionTime = 0 ∧ p.collisionDistance = 0 ∧
      p.is_collide = (dynamicObstacles env s.in_objects_ptr_ p.trajectory ego).1 := by
  unfold prepare at h
  cases hv : initialVelocity env u s.previous_trajectory_ twist pose.pose.position.x
      pose.pose.position.y with
  | error e => simp [hv] at h
  | ok v0 =>
    simp only [hv] at h
    injection h with h
    subst h
    refine ⟨rfl, ?_, ?_, rfl, ?_, ?_, ?_, rfl⟩
    · cases hi : s.isInitialize_ <;> simp [initialAcceleration, hi]
    · cases hi : s.isInitialize_ <;> simp [initialAcceleration, hi]
    · simp only [TrajectoryLoader.size]
      norm_num
    · norm_num
    · norm_num

theorem drop_eq_cons {α : Type} (l : List α) (i : Nat) (a : α) (t : List α)
    (h : l.drop i = a :: t) : l[i]? = some a ∧ l.drop (i + 1) = t := by
  constructor
  · have h1 := List.head?_drop l i
    rw [h] at h1
    exact h1.symm
  · have h2 := List.tail_drop l i
    rw [h] at h2
    exact h2.symm

theorem tabulateM_setWaypoint (env : Env) (lane : Lane) (trajectory : TrajectoryLoader)
    (result : List ℚ) (first : Waypoint) (hfirst : lane.waypoints[0]? = some first) :
    ∀ (n i : Nat) (pts : List TrajectoryPoint) (rs : List ℚ),
      trajectory.points.drop i = pts → result.drop i = rs → pts.length = n → rs.length = n →
      tabulateM (setWaypoint env lane trajectory result) n i =
        .ok (List.zipWith (fun pt r => (min r 4.9, makeWaypoint env lane first pt (min r 4.9)))
          pts rs) := by
  intro n
  induction n with
  | zero =>
    intro i pts rs _ _ hp hr
    rw [List.length_eq_zero] at hp hr
    subst hp hr
    rfl
  | succ n ih =>
    intro i pts rs hpts hrs hp hr
    cases pts with
    | nil => simp at hp
    | cons pt pts =>
      cases rs with
      | nil => simp at hr
      | cons r rs =>
        obtain ⟨hpi, hpd⟩ := drop_eq_cons _ _ _ _ hpts
        obtain ⟨hri, hrd⟩ := drop_eq_cons _ _ _ _ hrs
        have ih1 := ih (i + 1) pts rs hpd hrd (by simpa using hp) (by simpa using hr)
        simp [tabulateM, setWaypoint, readAt, hpi, hri, hfirst, ih1]

theorem map_fst_zipWith_pair {α β γ : Type} (g : β → β) (f : α → β → γ) :
    ∀ (as : List α) (bs : List β), as.length = bs.length →
      (List.zipWith (fun a b => (g b, f a (g b))) as bs).map (fun x => x.1) = bs.map g ∧
      (List.zipWith (fun a b => (g b, f a (g b))) as bs).map (fun x => x.2) =
        List.zipWith f as (bs.map g)
  | [], [], _ => ⟨rfl, rfl⟩
  | [], _ :: _, h => by simp at h
  | _ :: _, [], h => by simp at h
  | a :: as, b :: bs, h => by
    have ih := map_fst_zipWith_pair g f as bs (by simpa using h)
    simp [ih.1, ih.2]

theorem setResult_ok (env : Env) (lane : Lane) (p : Prepared) (result : List ℚ)
    (first : Waypoint) (pt0 : TrajectoryPoint)
    (hN : p.N = p.trajectory.points.length) (hlen : result.length = p.N)
    (hfirst : lane.waypoints[0]? = some first) (hpt : p.trajectory.points[0]? = some pt0) :
    setResult env lane p result =
      .ok ({ p.node with
              previous_trajectory_ := some
                { x_ := p.trajectory.x_, y_ := p.trajectory.y_,
                  velocity_ := result.map (min · 4.9) } },
        (match result.map (min · 4.9) with
          | [] => []
          | r0 :: _ => [Output.desired_velocity { linear := { x := r0 } }]) ++
        [.final_waypoints (publishedLane env lane first p.trajectory (result.map (min · 4.9))),
          .curvature pt0.curvature]) := by
  have hloop := tabulateM_setWaypoint env lane p.trajectory result first hfirst p.N 0
    p.trajectory.points result rfl rfl hN.symm hlen
  have hmap := map_fst_zipWith_pair (fun r : ℚ => min r 4.9) (makeWaypoint env lane first)
    p.trajectory.points result (by rw [hlen, hN])
  have hdrop : List.drop p.N result = [] := by
    rw [List.drop_eq_nil_iff]
    exact le_of_eq hlen
  have hcurv : readAt Vec.curvature_ p.trajectory.curvature_ 0 = .ok pt0.curvature := by
    simp [readAt, TrajectoryLoader.curvature_, hpt]
  unfold setResult
  simp only [hloop, hmap.1, hmap.2, hdrop, List.append_nil, hcurv]
  rfl

theorem timerCallback_eq (env : Env) (u : ℚ) (s : SpeedPlannerNode) (lane : Lane)
    (twist : TwistStamped) (ego : VehicleInfo) (pose : PoseStamped) (p : Prepared)
    (hl : s.in_lane_ptr_ = some lane) (ht : s.in_twist_ptr_ = some twist)
    (he : s.ego_vehicle_ptr_ = some ego) (hp : s.in_pose_ptr_ = some pose)
    (h : prepare env u s lane twist ego pose = .ok p) :
    timerCallback env u s =
      if (env.calcOptimizedSpeed s.speedOptimizer_ (optimizerCall p)).1 then
        setResult env lane p (env.calcOptimizedSpeed s.speedOptimizer_ (optimizerCall p)).2
      else .ok ({ s with isInitialize_ := true, previousVelocity_ := p.v0 }, []) := by
  have hnode := (prepare_eq env u s lane twist ego pose p h).2.1
  unfold timerCallback
  simp only [hl, ht, he, hp, h]
  cases (env.calcOptimizedSpeed s.speedOptimizer_ (optimizerCall p)).1 <;>
    simp [hnode, hl, ht, he, hp]

theorem prepare_status (env : Env) (u : ℚ) (s : SpeedPlannerNode) (lane : Lane)
    (twist : TwistStamped) (ego : VehicleInfo) (pose : PoseStamped)
    (status : Option VehicleStatus) :
    prepare env u { s with in_status_ptr_ := status } lane twist ego pose =
      (prepare env u s lane twist ego pose).map
        (fun p => { p with node := { p.node with in_status_ptr_ := status } }) := by
  unfold prepare
  simp only []
  cases initialVelocity env u s.previous_trajectory_ twist pose.pose.position.x
      pose.pose.position.y with
  | error e => rfl
  | ok v0 =>
    cases hi : s.isInitialize_ <;> simp [Except.map, initialAcceleration, hi]

theorem setResult_status (env : Env) (lane : Lane) (p : Prepared) (result : List ℚ)
    (status : Option VehicleStatus) :
    setResult env lane { p with node := { p.node with in_status_ptr_ := status } } result =
      (setResult env lane p result).map
        (fun r => ({ r.1 with in_status_ptr_ := status }, r.2)) := by
  unfold setResult
  simp only []
  cases tabulateM (setWaypoint env lane p.trajectory result) p.N 0 with
  | error e => rfl
  | ok waypoints =>
    simp only []
    cases readAt Vec.curvature_ p.trajectory.curvature_ 0 with
    | error e => rfl
    | ok c => rfl

theorem setResult_node (env : Env) (lane : Lane) (p : Prepared) (result : List ℚ)
    (s1 : SpeedPlannerNode) (out : List Output)
    (h : setResult env lane p result = .ok (s1, out)) :
    ∃ t, s1 = { p.node with previous_trajectory_ := some t } := by
  unfold setResult at h
  cases hloop : tabulateM (setWaypoint env lane p.trajectory result) p.N 0 with
  | error e => simp [hloop] at h
  | ok waypoints =>
    simp only [hloop] at h
    cases hc : readAt Vec.curvature_ p.trajectory.curvature_ 0 with
    | error e => simp [hc] at h
    | ok c =>
      simp only [hc] at h
      injection h with h
      injection h with h1 h2
      exact ⟨_, h1.symm⟩

theorem timerCallback_cases (env : Env) (u : ℚ) (s s1 : SpeedPlannerNode) (out : List Output)
    (h : timerCallback env u s = .ok (s1, out)) :
    (s1 = s ∧ out = [] ∧
        (s.in_lane_ptr_ = none ∨ s.in_twist_ptr_ = none ∨ s.ego_vehicle_ptr_ = none ∨
          s.in_pose_ptr_ = none)) ∨
      ∃ lane twist ego pose p,
        s.in_lane_ptr_ = some lane ∧ s.in_twist_ptr_ = some twist ∧
        s.ego_vehicle_ptr_ = some ego ∧ s.in_pose_ptr_ = some pose ∧
        prepare env u s lane twist ego pose = .ok p ∧
        (((env.calcOptimizedSpeed s.speedOptimizer_ (optimizerCall p)).1 = false ∧
            s1 = { s with isInitialize_ := true, previousVelocity_ := p.v0 } ∧ out = []) ∨
          ((env.calcOptimizedSpeed s.speedOptimizer_ (optimizerCall p)).1 = true ∧
            ∃ t, s1 = { s with isInitialize_ := true, previousVelocity_ := p.v0,
                               previous_trajectory_ := some t })) := by
  have skip : ∀ (_ : s.in_lane_ptr_ = none ∨ s.in_twist_ptr_ = none ∨
      s.ego_vehicle_ptr_ = none ∨ s.in_pose_ptr_ = none), s1 = s ∧ out = [] := by
    intro hmiss
    have hskip : timerCallback env u s = .ok (s, []) := by
      unfold timerCallback
      rcases hmiss with h | h | h | h <;> split <;> simp_all
    rw [hskip] at h
    injection h with h
    injection h with h1 h2
    exact ⟨h1.symm, h2.symm⟩
  rcases Option.eq_none_or_eq_some s.in_lane_ptr_ with hl | ⟨lane, hl⟩
  · exact Or.inl ⟨(skip (Or.inl hl)).1, (skip (Or.inl hl)).2, Or.inl hl⟩
  rcases Option.eq_none_or_eq_some s.in_twist_ptr_ with ht | ⟨twist, ht⟩
  · exact Or.inl ⟨(skip (Or.inr (Or.inl ht))).1, (skip (Or.inr (Or.inl ht))).2,
      Or.inr (Or.inl ht)⟩
  rcases Option.eq_none_or_eq_some s.ego_vehicle_ptr_ with he | ⟨ego, he⟩
  · exact Or.inl ⟨(skip (Or.inr (Or.inr (Or.inl he)))).1,
      (skip (Or.inr (Or.inr (Or.inl he)))).2, Or.inr (Or.inr (Or.inl he))⟩
  rcases Option.eq_none_or_eq_some s.in_pose_ptr_ with hp | ⟨pose, hp⟩
  · exact Or.inl ⟨(skip (Or.inr (Or.inr (Or.inr hp)))).1,
      (skip (Or.inr (Or.inr (Or.inr hp)))).2, Or.inr (Or.inr (Or.inr hp))⟩
  right
  rcases hprep : prepare env u s lane twist ego pose with e | p
  · simp [timerCallback, hl, ht, he, hp, hprep] at h
  · refine ⟨lane, twist, ego, pose, p, hl, ht, he, hp, hprep, ?_⟩
    have hnode := (prepare_eq env u s lane twist ego pose p hprep).2.1
    rw [timerCallback_eq env u s lane twist ego pose p hl ht he hp hprep] at h
    rcases hs : (env.calcOptimizedSpeed s.speedOptimizer_ (optimizerCall p)).1 with _ | _
    · left
      simp only [hs, Bool.false_eq_true, if_false] at h
      injection h with h
      injection h with h1 h2
      exact ⟨rfl, h1.symm, h2.symm⟩
    · right
      simp only [hs, if_true] at h
      obtain ⟨t, ht1⟩ := setResult_node env lane p _ s1 out h
      exact ⟨rfl, t, by rw [ht1, hnode]⟩

theorem optimizerInvocation_some (env : Env) (u : ℚ) (s : SpeedPlannerNode)
    (call : OptimizerCall) (h : optimizerInvocation env u s = .ok (some call)) :
    ∃ lane twist ego pose p,
      s.in_lane_ptr_ = some lane ∧ s.in_twist_ptr_ = some twist ∧
      s.ego_vehicle_ptr_ = some ego ∧ s.in_pose_ptr_ = some pose ∧
      prepare env u s lane twist ego pose = .ok p ∧ call = optimizerCall p := by
  unfold optimizerInvocation at h
  split at h
  · rename_i lane twist ego pose hl ht he hp
    cases hprep : prepare env u s lane twist ego pose with
    | error e => simp [hprep] at h
    | ok p =>
      rw [hprep] at h
      injection h with h
      injection h with h
      exact ⟨lane, twist, ego, pose, p, hl, ht, he, hp, hprep, h.symm⟩
  · simp at h

theorem firstCycle_eq (m u : ℚ) :
    timerCallback (scenarioEnv true [3]) u (coldNode onePointLane m) =
      .ok (warmNode m u, firstOutputs) := by
  rw [timerCallback_eq (scenarioEnv true [3]) u (coldNode onePointLane m) onePointLane
    (measured m) defaultEgo {} (coldPrepared m u) rfl rfl rfl rfl rfl]
  have hsolve : (scenarioEnv true [3]).calcOptimizedSpeed
      (coldNode onePointLane m).speedOptimizer_ (optimizerCall (coldPrepared m u)) =
      (true, [3]) := rfl
  rw [hsolve]
  simp only [if_true]
  rw [setResult_ok (scenarioEnv true [3]) onePointLane (coldPrepared m u) [3] {}
    { x := 0, y := 0, yaw := 0, curvature := 0 } rfl rfl rfl rfl]
  norm_num [TrajectoryLoader.x_, TrajectoryLoader.y_, coldPrepared, straightTrajectory,
    warmNode, firstOutputs, publishedLane, makeWaypoint, scenarioEnv, onePointLane]

theorem setResult_empty (env : Env) (lane : Lane) (p : Prepared) (result : List ℚ)
    (hN : p.N = 0) (hpts : p.trajectory.points = []) :
    setResult env lane p result = .error (.outOfRange .curvature_ 0) := by
  simp [setResult, hN, tabulateM, readAt, TrajectoryLoader.curvature_, hpts]

theorem setResult_defined (env : Env) (lane : Lane) (p : Prepared) (result : List ℚ)
    (r : SpeedPlannerNode × List Output) (hN : p.N = p.trajectory.points.length)
    (h : setResult env lane p result = .ok r) :
    0 < p.N ∧ lane.waypoints ≠ [] := by
  unfold setResult at h
  cases hloop : tabulateM (setWaypoint env lane p.trajectory result) p.N 0 with
  | error e => simp [hloop] at h
  | ok waypoints =>
    simp only [hloop] at h
    cases hc : readAt Vec.curvature_ p.trajectory.curvature_ 0 with
    | error e => simp [hc] at h
    | ok c =>
      have hpos : 0 < p.N := by
        rw [hN]
        cases hpts : p.trajectory.points with
        | nil => simp [readAt, TrajectoryLoader.curvature_, hpts] at hc
        | cons pt pts => simp
      refine ⟨hpos, fun hempty => ?_⟩
      obtain ⟨n, hn⟩ : ∃ n, p.N = n + 1 := ⟨p.N - 1, by omega⟩
      rw [hn] at hloop
      unfold tabulateM at hloop
      cases h0 : setWaypoint env lane p.trajectory result 0 with
      | error e => simp [h0] at hloop
      | ok w =>
        unfold setWaypoint at h0
        cases h1 : readAt Vec.result result 0 with
        | error e => simp [h1] at h0
        | ok r0 =>
          simp only [h1] at h0
          cases h2 : readAt Vec.x_ p.trajectory.points 0 with
          | error e => simp [h2] at h0
          | ok pt =>
            simp only [h2] at h0
            simp [readAt, hempty] at h0

/-! ## Missing input (C8) -/

/-- C8: when the pose, the velocity or the lane snapshot is absent,
`timerCallback` publishes nothing and returns the node as it was (so the stored
plan, `previousVelocity_` and `isInitialize_` are unchanged); and the
vehicle-status snapshot plays no part in a cycle: replacing it changes nothing
of what the cycle does except that field of the node. -/
theorem C8_missing_input_is_noop (env : Env) (u : ℚ) (s : SpeedPlannerNode) :
    ((s.in_pose_ptr_ = none ∨ s.in_twist_ptr_ = none ∨ s.in_lane_ptr_ = none) →
        timerCallback env u s = .ok (s, [])) ∧
      ∀ status : Option VehicleStatus,
        timerCallback env u { s with in_status_ptr_ := status } =
          (timerCallback env u s).map
            (fun r => ({ r.1 with in_status_ptr_ := status }, r.2)) := by
  constructor
  · intro h
    unfold timerCallback
    rcases h with h | h | h <;> split <;> simp_all
  · intro status
    unfold timerCallback
    simp only []
    split
    · rename_i lane twist ego pose hl ht he hp
      rw [prepare_status]
      cases prepare env u s lane twist ego pose with
      | error e => rfl
      | ok p =>
        simp only [Except.map]
        have hc : optimizerCall { p with node := { p.node with in_status_ptr_ := status } } =
            optimizerCall p := rfl
        rw [hc]
        cases (env.calcOptimizedSpeed s.speedOptimizer_ (optimizerCall p)).1
        · rfl
        · simp only [Bool.not_true, Bool.false_eq_true, if_false]
          rw [setResult_status]
          rfl
    · rfl

/-- Witness of C8: the freshly constructed node has no pose yet, and its first
timer event is a no-op. -/
theorem C8_missing_input_is_noop_witness :
    ((newSpeedPlannerNode {} 0).in_pose_ptr_ = none ∨
        (newSpeedPlannerNode {} 0).in_twist_ptr_ = none ∨
        (newSpeedPlannerNode {} 0).in_lane_ptr_ = none) ∧
      timerCallback (scenarioEnv true [3]) 0 (newSpeedPlannerNode {} 0) =
        .ok (newSpeedPlannerNode {} 0, []) :=
  ⟨Or.inl rfl,
    (C8_missing_input_is_noop (scenarioEnv true [3]) 0 (newSpeedPlannerNode {} 0)).1
      (Or.inl rfl)⟩

/-! ## Cold start (C1) -/

theorem prepare_cold (env : Env) (u : ℚ) (s : SpeedPlannerNode) (lane : Lane)
    (twist : TwistStamped) (ego : VehicleInfo) (pose : PoseStamped)
    (hprev : s.previous_trajectory_ = none) (hinit : s.isInitialize_ = false) :
    (prepare env u s lane twist ego pose).map
        (fun p => ((optimizerCall p).v0, (optimizerCall p).a0)) = .ok (u, 0) := by
  simp [prepare, hprev, hinit, initialVelocity, initialAcceleration, Except.map, optimizerCall]

/-- C1: on the first cycle of a node that has received a lane, a pose and the
measured velocity 1, the optimizer is handed `a0 = 0` and, as `v0`, the
indeterminate content of the uninitialised local (0 here), not the measured
velocity. -/
theorem C1_cold_start_v0_is_not_measured :
    (coldNode onePointLane 1).previous_trajectory_ = none ∧
      (coldNode onePointLane 1).isInitialize_ = false ∧
      (coldNode onePointLane 1).in_twist_ptr_.map (·.twist.linear.x) = some 1 ∧
      (optimizerInvocation (scenarioEnv true [3]) 0 (coldNode onePointLane 1)).map
        (Option.map (fun call => (call.v0, call.a0))) = .ok (some (0, 0)) := by
  refine ⟨rfl, rfl, rfl, ?_⟩
  simp [optimizerInvocation, coldNode, currentVelocityCallback, currentPoseCallback,
    waypointsCallback, newSpeedPlannerNode, prepare, initialVelocity, initialAcceleration,
    Except.map, optimizerCall]

/-! ## Collision outcome (C3) -/

theorem optimizerCall_collision (env : Env) (u : ℚ) (s : SpeedPlannerNode) (lane : Lane)
    (twist : TwistStamped) (ego : VehicleInfo) (pose : PoseStamped) (p : Prepared)
    (h : prepare env u s lane twist ego pose = .ok p) :
    (optimizerCall p).collisionTime = 0 ∧ (optimizerCall p).collisionDistance = 0 := by
  have hp := prepare_eq env u s lane twist ego pose p h
  exact ⟨hp.2.2.2.2.2.1, hp.2.2.2.2.2.2.1⟩

/-- C3: with one obstacle stored and a collision check that reports a conflict
at time 3 and distance 13, the cycle has `is_collide = true` and the pair
`(3, 13)`, and calls the optimizer with `collisionTime = 0` and
`collisionDistance = 0`. -/
theorem C3_collision_outcome_dropped :
    collisionVerdict (scenarioEnv true [3]) 0
        { coldNode onePointLane 1 with in_objects_ptr_ := some (oneObject "map") } =
      .ok (some (true, (3, 13))) ∧
    (optimizerInvocation (scenarioEnv true [3]) 0
        { coldNode onePointLane 1 with in_objects_ptr_ := some (oneObject "map") }).map
      (Option.map (fun call => (call.collisionTime, call.collisionDistance))) =
      .ok (some (0, 0)) := by
  constructor <;>
  norm_num [collisionVerdict, optimizerInvocation, prepare, coldNode, currentVelocityCallback,
    currentPoseCallback, waypointsCallback, newSpeedPlannerNode, initialVelocity,
    initialAcceleration, dynamicObstacles, scenarioEnv, oneObject, Except.map, optimizerCall]

/-! ## Comfort speed (C6) -/

theorem comfortDenominator_of_nonneg (c : ℚ) (h : 0 ≤ c) :
    comfortDenominator c = specComfortDenominator c := by
  unfold comfortDenominator specComfortDenominator
  rw [abs_of_nonneg h, abs_of_nonneg (by positivity)]

theorem desiredSpeed_lt (sqrt : ℚ → ℚ) (g Vr c : ℚ) : desiredSpeed sqrt g Vr c < Vr := by
  unfold desiredSpeed
  have h : Vr - 0.1 < Vr := by norm_num
  split
  · exact h
  · split
    · exact h
    · exact lt_of_le_of_lt (min_le_left _ _) h

/-- C6: at the curvature `-1e-6` the denominator the node computes,
`fabs(curvature + 1e-6)`, is zero, while the denominator of the stated
formula, `|curvature| + 1e-6`, is `2e-6`; the node then sets `Vd = Vr - 0.1`. -/
theorem C6_comfort_denominator_zero :
    comfortDenominator (-1e-6) = 0 ∧ specComfortDenominator (-1e-6) = 2e-6 ∧
      desiredSpeed newtonSqrt 0.4 5.0 (-1e-6) = 4.9 := by
  refine ⟨?_, ?_, ?_⟩
  · norm_num [comfortDenominator]
  · norm_num [specComfortDenominator, abs_of_nonneg]
  · have h : comfortDenominator (-1e-6) = 0 := by norm_num [comfortDenominator]
    simp only [desiredSpeed, h, if_true]
    norm_num

/-! ## Infeasible cycle (C2) -/

/-- Counterexample to C2: on the cold node the optimizer returns false; the
cycle publishes nothing, but the memory goes from `(none, 0, false)` to
`(none, 7, true)`: `isInitialize_` is set and `previousVelocity_` takes the
value of `v0`. -/
theorem C2_counterexample :
    (optimizerInvocation (scenarioEnv false []) 7 (coldNode onePointLane 1)).map
        (Option.map (fun call => ((scenarioEnv false []).calcOptimizedSpeed
          (coldNode onePointLane 1).speedOptimizer_ call).1)) = .ok (some false) ∧
      memory (coldNode onePointLane 1) = (none, 0, false) ∧
      (timerCallback (scenarioEnv false []) 7 (coldNode onePointLane 1)).map
        (fun r => (memory r.1, r.2)) = .ok ((none, 7, true), []) := by
  refine ⟨?_, rfl, ?_⟩ <;>
  simp [timerCallback, optimizerInvocation, coldNode, currentVelocityCallback,
    currentPoseCallback, waypointsCallback, newSpeedPlannerNode, prepare, initialVelocity,
    initialAcceleration, scenarioEnv, Except.map, memory]

/-- C2, amended: in a cycle that reaches the optimizer and in which
`calcOptimizedSpeed` returns false, `timerCallback` publishes nothing and leaves
the stored previous trajectory and every input snapshot as they were; of the
memory, `isInitialize_` is true afterwards and `previousVelocity_` holds the
`v0` of this cycle. -/
theorem C2_infeasible_cycle (env : Env) (u : ℚ) (s : SpeedPlannerNode) (lane : Lane)
    (twist : TwistStamped) (ego : VehicleInfo) (pose : PoseStamped) (p : Prepared)
    (hl : s.in_lane_ptr_ = some lane) (ht : s.in_twist_ptr_ = some twist)
    (he : s.ego_vehicle_ptr_ = some ego) (hp : s.in_pose_ptr_ = some pose)
    (hprep : prepare env u s lane twist ego pose = .ok p)
    (hfail : (env.calcOptimizedSpeed s.speedOptimizer_ (optimizerCall p)).1 = false) :
    timerCallback env u s =
      .ok ({ s with isInitialize_ := true, previousVelocity_ := p.v0 }, []) := by
  rw [timerCallback_eq env u s lane twist ego pose p hl ht he hp hprep, hfail]
  rfl

/-- Witness of C2, amended: the cold node with an optimizer that returns false. -/
theorem C2_infeasible_cycle_witness :
    timerCallback (scenarioEnv false []) 7 (coldNode onePointLane 1) =
      .ok ({ coldNode onePointLane 1 with isInitialize_ := true, previousVelocity_ := 7 },
        []) :=
  C2_infeasible_cycle (scenarioEnv false []) 7 (coldNode onePointLane 1) onePointLane
    (measured 1) defaultEgo {} (coldPrepared 1 7) rfl rfl rfl rfl rfl rfl

/-! ## Transform failure (C4) -/

/-- Counterexample to C4: a first detection message in frame `velodyne` is
transformed and stored; a second one in frame `base_link`, whose lookup fails,
leaves that snapshot in place, and the next cycle runs the collision check on
it and gets `is_collide = true`. -/
theorem C4_counterexample :
    (scenarioEnv true [3]).lookupTransform "map" "base_link" = none ∧
      (objectsCallback (scenarioEnv true [3])
        (objectsCallback (scenarioEnv true [3]) (coldNode onePointLane 1)
          (oneObject "velodyne"))
        (oneObject "base_link")).in_objects_ptr_.map (·.objects.length) = some 1 ∧
      collisionVerdict (scenarioEnv true [3]) 0
        (objectsCallback (scenarioEnv true [3])
          (objectsCallback (scenarioEnv true [3]) (coldNode onePointLane 1)
            (oneObject "velodyne"))
          (oneObject "base_link")) = .ok (some (true, (3, 13))) := by
  refine ⟨by decide, ?_, ?_⟩ <;>
  simp [collisionVerdict, objectsCallback, coldNode, currentVelocityCallback,
    currentPoseCallback, waypointsCallback, newSpeedPlannerNode, prepare, initialVelocity,
    initialAcceleration, dynamicObstacles, scenarioEnv, oneObject, onePointLane,
    transformObject]

/-- C4, amended: when the transform lookup of a detection message fails,
`objectsCallback` leaves the node as it was, the obstacle snapshot of an
earlier message included; so in the next cycle step 4 skips the collision
check (`is_collide = false`) when no snapshot or an empty one is stored, and
runs it on the retained snapshot otherwise. -/
theorem C4_transform_failure (env : Env) (s : SpeedPlannerNode) (msg : DetectedObjectArray)
    (hfail : ∀ lane, s.in_lane_ptr_ = some lane →
      env.lookupTransform lane.header.frame_id msg.header.frame_id = none) :
    objectsCallback env s msg = s ∧
      ∀ (trajectory : TrajectoryLoader) (ego : VehicleInfo),
        dynamicObstacles env (objectsCallback env s msg).in_objects_ptr_ trajectory ego =
          match s.in_objects_ptr_ with
          | none => (false, (0, 0))
          | some snapshot =>
            if snapshot.objects = [] then (false, (0, 0))
            else env.check trajectory (snapshot.objects.map (toObstacle env)) ego := by
  have h : objectsCallback env s msg = s := by
    unfold objectsCallback
    cases hl : s.in_lane_ptr_ with
    | none => rfl
    | some lane =>
      simp only [hfail lane hl]
      split <;> rfl
  refine ⟨h, fun trajectory ego => ?_⟩
  rw [h]
  unfold dynamicObstacles
  cases s.in_objects_ptr_ with
  | none => rfl
  | some snapshot =>
    cases hs : snapshot.objects <;> simp [hs]

/-- Witness of C4, amended: the cold node holds a lane in frame `map` and no
obstacle snapshot; a message in frame `base_link` fails its lookup. -/
theorem C4_transform_failure_witness :
    (∀ lane, (coldNode onePointLane 1).in_lane_ptr_ = some lane →
        (scenarioEnv true [3]).lookupTransform lane.header.frame_id
          (oneObject "base_link").header.frame_id = none) ∧
      objectsCallback (scenarioEnv true [3]) (coldNode onePointLane 1)
        (oneObject "base_link") = coldNode onePointLane 1 :=
  have h : ∀ lane, (coldNode onePointLane 1).in_lane_ptr_ = some lane →
      (scenarioEnv true [3]).lookupTransform lane.header.frame_id
        (oneObject "base_link").header.frame_id = none := by
    intro lane _
    simp [scenarioEnv, oneObject]
  ⟨h, (C4_transform_failure (scenarioEnv true [3]) (coldNode onePointLane 1)
    (oneObject "base_link") h).1⟩

/-! ## Bounds of the published profile (C7) -/

theorem publishedLane_velocity (env : Env) (lane : Lane) (first : Waypoint) :
    ∀ (pts : List TrajectoryPoint) (velocity : List ℚ), pts.length = velocity.length →
      (List.zipWith (makeWaypoint env lane first) pts velocity).map
        (fun w => w.twist.twist.linear.x) = velocity
  | [], [], _ => rfl
  | [], _ :: _, h => by simp at h
  | _ :: _, [], h => by simp at h
  | pt :: pts, r :: rs, h => by
    have ih := publishedLane_velocity env lane first pts rs (by simpa using h)
    simp [ih, makeWaypoint]

theorem clip_bounds (r vr : ℚ) (h : 0 ≤ r ∧ r ≤ vr) :
    (0 ≤ min r 4.9 ∧ min r 4.9 ≤ min vr 4.9) ∧ min r 4.9 ≤ r ∧ (r ≤ 4.9 → min r 4.9 = r) := by
  refine ⟨⟨le_min h.1 (by norm_num), min_le_min h.2 le_rfl⟩, min_le_left _ _, fun h1 => ?_⟩
  exact min_eq_left h1

/-- C7: in a cycle that reaches the optimizer with at least one trajectory
point and a non-empty lane, if the solve succeeds with an output `v` that
satisfies the box constraint `0 ≤ v[i] ≤ Vr[i]` elementwise (so `v` has length
`N`; `Vr[i] = 5.0`), then the cycle publishes DesiredVelocity, the lane and the
curvature, the waypoint velocities of the lane and the profile stored in
`previous_trajectory_` are both `min(v[i], 4.9)`, DesiredVelocity is its first
element, each published velocity lies in `[0, min(Vr[i], 4.9)]`, never exceeds
`v[i]`, and equals `v[i]` whenever `v[i] ≤ 4.9`. -/
theorem C7_published_profile_bounds (env : Env) (u : ℚ) (s : SpeedPlannerNode) (lane : Lane)
    (twist : TwistStamped) (ego : VehicleInfo) (pose : PoseStamped) (p : Prepared)
    (v : List ℚ)
    (hl : s.in_lane_ptr_ = some lane) (ht : s.in_twist_ptr_ = some twist)
    (he : s.ego_vehicle_ptr_ = some ego) (hp : s.in_pose_ptr_ = some pose)
    (hprep : prepare env u s lane twist ego pose = .ok p)
    (hsolve : env.calcOptimizedSpeed s.speedOptimizer_ (optimizerCall p) = (true, v))
    (hbox : List.Forall₂ (fun r vr => 0 ≤ r ∧ r ≤ vr) v (optimizerCall p).Vr)
    (hlane : lane.waypoints ≠ []) (hN : 0 < p.N) :
    ∃ (s1 : SpeedPlannerNode) (dv : Twist) (lane1 : Lane) (c : ℚ),
      timerCallback env u s =
        .ok (s1, [.desired_velocity dv, .final_waypoints lane1, .curvature c]) ∧
      lane1.waypoints.map (fun w => w.twist.twist.linear.x) = v.map (min · 4.9) ∧
      s1.previous_trajectory_.map (·.velocity_) = some (v.map (min · 4.9)) ∧
      (v.map (min · 4.9)).head? = some dv.linear.x ∧
      (optimizerCall p).Vr = List.replicate v.length 5 ∧
      List.Forall₂ (fun vel vr => 0 ≤ vel ∧ vel ≤ min vr 4.9) (v.map (min · 4.9))
        (optimizerCall p).Vr ∧
      List.Forall₂ (fun vel r => vel ≤ r ∧ (r ≤ 4.9 → vel = r)) (v.map (min · 4.9)) v := by
  obtain ⟨-, -, -, hNlen, hVr, -⟩ := prepare_eq env u s lane twist ego pose p hprep
  have hcallVr : (optimizerCall p).Vr = p.Vr := rfl
  have hvlen : v.length = p.N := by
    have := hbox.length_eq
    rw [hcallVr, hVr, List.length_replicate] at this
    exact this
  obtain ⟨first, hfirst⟩ : ∃ first, lane.waypoints[0]? = some first := by
    cases hw : lane.waypoints with
    | nil => exact absurd hw hlane
    | cons w ws => exact ⟨w, by simp⟩
  obtain ⟨pt0, hpt0⟩ : ∃ pt0, p.trajectory.points[0]? = some pt0 := by
    cases hw : p.trajectory.points with
    | nil => rw [hNlen, hw] at hN; simp at hN
    | cons w ws => exact ⟨w, by simp⟩
  obtain ⟨r0, rs, hv⟩ : ∃ r0 rs, v = r0 :: rs := by
    cases v with
    | nil => rw [← hvlen] at hN; simp at hN
    | cons r0 rs => exact ⟨r0, rs, rfl⟩
  have hcycle := timerCallback_eq env u s lane twist ego pose p hl ht he hp hprep
  rw [hsolve] at hcycle
  simp only [if_true] at hcycle
  rw [setResult_ok env lane p v first pt0 hNlen hvlen hfirst hpt0] at hcycle
  refine ⟨{ p.node with
      previous_trajectory_ := some
        { x_ := p.trajectory.x_, y_ := p.trajectory.y_, velocity_ := v.map (min · 4.9) } },
    { linear := { x := min r0 4.9 } },
    publishedLane env lane first p.trajectory (v.map (min · 4.9)), pt0.curvature,
    ?_, ?_, rfl, ?_, ?_, ?_, ?_⟩
  · rw [hcycle, hv]
    rfl
  · exact publishedLane_velocity env lane first _ _ (by
      rw [List.length_map, hvlen, hNlen])
  · rw [hv]; rfl
  · rw [hcallVr, hVr, hvlen]
  · rw [List.forall₂_map_left_iff]
    exact hbox.imp (fun r vr h => (clip_bounds r vr h).1)
  · rw [List.forall₂_map_left_iff, List.forall₂_same]
    intro r _
    exact ⟨min_le_left _ _, fun h => min_eq_left h⟩

/-- Witness of C7: the first cycle of the cold node on a one-point lane, with
the optimizer answering `[3]`. -/
theorem C7_published_profile_bounds_witness :
    (scenarioEnv true [3]).calcOptimizedSpeed (coldNode onePointLane 1).speedOptimizer_
        (optimizerCall (coldPrepared 1 0)) = (true, [3]) ∧
      List.Forall₂ (fun r vr => 0 ≤ r ∧ r ≤ vr) [3] (optimizerCall (coldPrepared 1 0)).Vr ∧
      ∃ (s1 : SpeedPlannerNode) (dv : Twist) (lane1 : Lane) (c : ℚ),
        timerCallback (scenarioEnv true [3]) 0 (coldNode onePointLane 1) =
          .ok (s1, [.desired_velocity dv, .final_waypoints lane1, .curvature c]) ∧
        lane1.waypoints.map (fun w => w.twist.twist.linear.x) = ([3] : List ℚ).map (min · 4.9) ∧
        s1.previous_trajectory_.map (·.velocity_) = some (([3] : List ℚ).map (min · 4.9)) ∧
        (([3] : List ℚ).map (min · 4.9)).head? = some dv.linear.x ∧
        (optimizerCall (coldPrepared 1 0)).Vr = List.replicate [(3 : ℚ)].length 5 ∧
        List.Forall₂ (fun vel vr => 0 ≤ vel ∧ vel ≤ min vr 4.9) (([3] : List ℚ).map (min · 4.9))
          (optimizerCall (coldPrepared 1 0)).Vr ∧
        List.Forall₂ (fun vel r => vel ≤ r ∧ (r ≤ 4.9 → vel = r)) (([3] : List ℚ).map (min · 4.9)) ([3] : List ℚ) :=
  have hbox : List.Forall₂ (fun r vr : ℚ => 0 ≤ r ∧ r ≤ vr) [3]
      (optimizerCall (coldPrepared 1 0)).Vr :=
    List.Forall₂.cons (by norm_num) List.Forall₂.nil
  ⟨rfl, hbox,
    C7_published_profile_bounds (scenarioEnv true [3]) 0 (coldNode onePointLane 1) onePointLane
      (measured 1) defaultEgo {} (coldPrepared 1 0) [3] rfl rfl rfl rfl rfl rfl hbox
      (by simp [onePointLane]) (by decide)⟩

/-! ## Warm start (C5) -/

theorem timerCallback_memory (env : Env) (u : ℚ) (s s1 : SpeedPlannerNode)
    (out : List Output) (call : OptimizerCall)
    (hcall : optimizerInvocation env u s = .ok (some call))
    (hcycle : timerCallback env u s = .ok (s1, out)) :
    s1.isInitialize_ = true ∧ s1.previousVelocity_ = call.v0 ∧
      s1.timer_callback_dt_ = s.timer_callback_dt_ := by
  obtain ⟨lane, twist, ego, pose, p, hl, ht, he, hp, hprep, hc⟩ :=
    optimizerInvocation_some env u s call hcall
  have hv : call.v0 = p.v0 := by rw [hc]; rfl
  rcases timerCallback_cases env u s s1 out hcycle with ⟨-, -, hmiss⟩ | hrun
  · rcases hmiss with h | h | h | h <;> simp_all
  · obtain ⟨lane1, twist1, ego1, pose1, p1, hl1, ht1, he1, hp1, hprep1, hres⟩ := hrun
    rw [hl] at hl1
    rw [ht] at ht1
    rw [he] at he1
    rw [hp] at hp1
    injection hl1 with hl1
    injection ht1 with ht1
    injection he1 with he1
    injection hp1 with hp1
    subst hl1 ht1 he1 hp1
    rw [hprep] at hprep1
    injection hprep1 with hprep1
    subst hprep1
    rcases hres with ⟨-, hs1, -⟩ | ⟨-, t, hs1⟩ <;> rw [hs1, hv] <;> exact ⟨rfl, rfl, rfl⟩

/-- Counterexample to C5: two consecutive successful cycles from the cold node.
The first has `v0 = 1` and publishes DesiredVelocity 3 (stored as
`velocity_[0]`); the second has `v0 = 3` and `a0 = 20 = (3 - 1) / 0.1`, whereas
`(v0 - c) / period` with the commanded velocity `c = 3` is 0. -/
theorem C5_counterexample :
    (optimizerInvocation (scenarioEnv true [3]) 1 (coldNode onePointLane 1)).map
        (Option.map (·.v0)) = .ok (some 1) ∧
      (timerCallback (scenarioEnv true [3]) 1 (coldNode onePointLane 1)).map
        (fun r => (r.2.head?, r.1.previous_trajectory_.map (·.velocity_))) =
        .ok (some (.desired_velocity { linear := { x := 3 } }), some [3]) ∧
      ((timerCallback (scenarioEnv true [3]) 1 (coldNode onePointLane 1)).bind
        (fun r => (optimizerInvocation (scenarioEnv true [3]) 0 r.1).map
          (Option.map (fun call => (call.v0, call.a0))))) = .ok (some (3, 20)) ∧
      ((3 : ℚ) - 3) / 0.1 ≠ 20 := by
  refine ⟨?_, ?_, ?_, by norm_num⟩
  · simp [optimizerInvocation, coldNode, currentVelocityCallback, currentPoseCallback,
      waypointsCallback, newSpeedPlannerNode, prepare, initialVelocity, initialAcceleration,
      Except.map, optimizerCall]
  · rw [firstCycle_eq]
    rfl
  · rw [firstCycle_eq]
    norm_num [Except.bind, optimizerInvocation, warmNode, coldPrepared, coldNode,
      currentVelocityCallback, currentPoseCallback, waypointsCallback, newSpeedPlannerNode,
      prepare, initialVelocity, initialAcceleration, Except.map, optimizerCall, scenarioEnv,
      readAtInt, readAt]

/-- C5, amended: for two consecutive cycles that reach the optimizer, the
first of which returns, the second cycle has
`a0 = (v0 - w) / timer_callback_dt_`, where `v0` is its own initial velocity and
`w` is the initial velocity `v0` of the first cycle, which is what the first
cycle stored in `previousVelocity_` (the published `velocity[0]` plays no part).
Callbacks between the two cycles may change the input snapshots, not the
memory. -/
theorem C5_warm_start_acceleration (env : Env) (u1 u2 : ℚ) (s s1 s2 : SpeedPlannerNode)
    (out1 : List Output) (call1 call2 : OptimizerCall)
    (hcall1 : optimizerInvocation env u1 s = .ok (some call1))
    (hcycle1 : timerCallback env u1 s = .ok (s1, out1))
    (hmem : memory s2 = memory s1) (hdt : s2.timer_callback_dt_ = s1.timer_callback_dt_)
    (hcall2 : optimizerInvocation env u2 s2 = .ok (some call2)) :
    s1.previousVelocity_ = call1.v0 ∧
      call2.a0 = (call2.v0 - call1.v0) / s.timer_callback_dt_ := by
  obtain ⟨hinit, hprev, hdt1⟩ := timerCallback_memory env u1 s s1 out1 call1 hcall1 hcycle1
  obtain ⟨lane, twist, ego, pose, p, -, -, -, -, hprep, hc⟩ :=
    optimizerInvocation_some env u2 s2 call2 hcall2
  have ha := (prepare_eq env u2 s2 lane twist ego pose p hprep).2.2.1
  simp only [memory, Prod.mk.injEq] at hmem
  refine ⟨hprev, ?_⟩
  have h1 : call2.a0 = p.a0 := by rw [hc]; rfl
  have h2 : call2.v0 = p.v0 := by rw [hc]; rfl
  rw [h1, h2, ha, hmem.2.2, hinit, hmem.2.1, hprev, hdt, hdt1]
  simp

/-- Witness of C5, amended: the two cycles of the counterexample. -/
theorem C5_warm_start_acceleration_witness :
    timerCallback (scenarioEnv true [3]) 1 (coldNode onePointLane 1) =
        .ok (warmNode 1 1, firstOutputs) ∧
      optimizerInvocation (scenarioEnv true [3]) 0 (warmNode 1 1) =
        .ok (some { optimizerCall (coldPrepared 1 1) with v0 := 3, a0 := 20 }) ∧
      (warmNode 1 1).previousVelocity_ = (optimizerCall (coldPrepared 1 1)).v0 ∧
      ({ optimizerCall (coldPrepared 1 1) with v0 := 3, a0 := 20 } : OptimizerCall).a0 =
        (({ optimizerCall (coldPrepared 1 1) with v0 := 3, a0 := 20 } : OptimizerCall).v0 -
          (optimizerCall (coldPrepared 1 1)).v0) /
            (coldNode onePointLane 1).timer_callback_dt_ :=
  have h2 : optimizerInvocation (scenarioEnv true [3]) 0 (warmNode 1 1) =
      .ok (some { optimizerCall (coldPrepared 1 1) with v0 := 3, a0 := 20 }) := by
    norm_num [optimizerInvocation, warmNode, coldPrepared, coldNode,
      currentVelocityCallback, currentPoseCallback, waypointsCallback, newSpeedPlannerNode,
      prepare, initialVelocity, initialAcceleration, optimizerCall, scenarioEnv,
      readAtInt, readAt, onePointLane, straightTrajectory, TrajectoryLoader.size,
      TrajectoryLoader.curvature_]
  ⟨firstCycle_eq 1 1, h2,
    C5_warm_start_acceleration (scenarioEnv true [3]) 1 0 (coldNode onePointLane 1)
      (warmNode 1 1) (warmNode 1 1) firstOutputs (optimizerCall (coldPrepared 1 1))
      { optimizerCall (coldPrepared 1 1) with v0 := 3, a0 := 20 }
      rfl (firstCycle_eq 1 1) rfl rfl h2⟩

/-! ## Short paths (C9) -/

/-- Counterexample to C9: the lane has one waypoint and the resampled
trajectory one point (`N = 1 < 2`); the optimizer succeeds, and the cycle
publishes three messages and replaces the memory `(none, 0, false)` by the new
plan, the velocity 1 and the flag `true`. -/
theorem C9_counterexample :
    (optimizerInvocation (scenarioEnv true [3]) 1 (coldNode onePointLane 1)).map
        (Option.map (·.trajectory.size)) = .ok (some 1) ∧
      memory (coldNode onePointLane 1) = (none, 0, false) ∧
      (timerCallback (scenarioEnv true [3]) 1 (coldNode onePointLane 1)).map
        (fun r => (r.2.length, memory r.1)) =
        .ok (3, (some { x_ := [0], y_ := [0], velocity_ := [3] }, 1, true)) := by
  refine ⟨?_, rfl, ?_⟩
  · simp [optimizerInvocation, coldNode, currentVelocityCallback, currentPoseCallback,
      waypointsCallback, newSpeedPlannerNode, prepare, initialVelocity, initialAcceleration,
      Except.map, optimizerCall, scenarioEnv, onePointLane, straightTrajectory,
      TrajectoryLoader.size]
  · rw [firstCycle_eq]
    rfl

/-- C9, amended: `timerCallback` has no check of the path length. A cycle that
reaches the optimizer with a trajectory of fewer than 2 points (the lane may
even be empty) is handled like any other: if the optimizer returns false the
cycle returns having published nothing, with the stored plan unchanged,
`isInitialize_` set and `previousVelocity_ = v0`; if the optimizer returns true
with a result of length `N = 1` and the lane is not empty, the cycle returns
having published DesiredVelocity, a lane of one waypoint and Curvature, and
having stored the plan. -/
theorem C9_short_path_cycle (env : Env) (u : ℚ) (s : SpeedPlannerNode) (lane : Lane)
    (twist : TwistStamped) (ego : VehicleInfo) (pose : PoseStamped) (p : Prepared)
    (hl : s.in_lane_ptr_ = some lane) (ht : s.in_twist_ptr_ = some twist)
    (he : s.ego_vehicle_ptr_ = some ego) (hp : s.in_pose_ptr_ = some pose)
    (hprep : prepare env u s lane twist ego pose = .ok p) (hshort : p.trajectory.size < 2) :
    optimizerInvocation env u s = .ok (some (optimizerCall p)) ∧
      ((env.calcOptimizedSpeed s.speedOptimizer_ (optimizerCall p)).1 = false →
        timerCallback env u s =
          .ok ({ s with isInitialize_ := true, previousVelocity_ := p.v0 }, [])) ∧
      ((env.calcOptimizedSpeed s.speedOptimizer_ (optimizerCall p)).1 = true →
        p.trajectory.size = 1 →
        (env.calcOptimizedSpeed s.speedOptimizer_ (optimizerCall p)).2.length = 1 →
        lane.waypoints ≠ [] →
        ∃ (s1 : SpeedPlannerNode) (dv : Twist) (lane1 : Lane) (c : ℚ),
          timerCallback env u s =
            .ok (s1, [.desired_velocity dv, .final_waypoints lane1, .curvature c]) ∧
          lane1.waypoints.length = 1 ∧
          s1.previous_trajectory_.map (·.velocity_) =
            some ((env.calcOptimizedSpeed s.speedOptimizer_ (optimizerCall p)).2.map
              (min · 4.9))) := by
  have _ := hshort
  obtain ⟨-, -, -, hNlen, -⟩ := prepare_eq env u s lane twist ego pose p hprep
  have hcycle := timerCallback_eq env u s lane twist ego pose p hl ht he hp hprep
  refine ⟨?_, ?_, ?_⟩
  · simp [optimizerInvocation, hl, ht, he, hp, hprep]
  · intro hfail
    rw [hcycle, hfail]
    rfl
  · intro hok hone hlen hlane
    rw [TrajectoryLoader.size] at hone
    obtain ⟨first, hfirst⟩ : ∃ first, lane.waypoints[0]? = some first := by
      cases hw : lane.waypoints with
      | nil => exact absurd hw hlane
      | cons w ws => exact ⟨w, by simp⟩
    obtain ⟨pt0, hpts⟩ : ∃ pt0, p.trajectory.points = [pt0] := by
      cases hw : p.trajectory.points with
      | nil => rw [hw] at hone; simp at hone
      | cons w ws =>
        cases ws with
        | nil => exact ⟨w, rfl⟩
        | cons w2 ws => rw [hw] at hone; simp at hone
    obtain ⟨r0, hr⟩ : ∃ r0, (env.calcOptimizedSpeed s.speedOptimizer_ (optimizerCall p)).2 =
        [r0] := by
      cases hw : (env.calcOptimizedSpeed s.speedOptimizer_ (optimizerCall p)).2 with
      | nil => rw [hw] at hlen; simp at hlen
      | cons w ws =>
        cases ws with
        | nil => exact ⟨w, rfl⟩
        | cons w2 ws => rw [hw] at hlen; simp at hlen
    rw [hok] at hcycle
    simp only [if_true] at hcycle
    rw [setResult_ok env lane p _ first pt0 hNlen (by rw [hlen, hNlen, hone]) hfirst
      (by simp [hpts])] at hcycle
    refine ⟨{ p.node with
        previous_trajectory_ := some
          { x_ := p.trajectory.x_, y_ := p.trajectory.y_,
            velocity_ := (env.calcOptimizedSpeed s.speedOptimizer_ (optimizerCall p)).2.map
              (min · 4.9) } },
      { linear := { x := min r0 4.9 } },
      publishedLane env lane first p.trajectory
        ((env.calcOptimizedSpeed s.speedOptimizer_ (optimizerCall p)).2.map (min · 4.9)),
      pt0.curvature, ?_, ?_, rfl⟩
    · rw [hcycle, hr]
      rfl
    · simp [publishedLane, hpts, hr]

/-- Witness of C9, amended: the first cycle of the cold node on a one-point
lane, with the optimizer answering `[3]`. -/
theorem C9_short_path_cycle_witness :
    (coldPrepared 1 1).trajectory.size < 2 ∧
      optimizerInvocation (scenarioEnv true [3]) 1 (coldNode onePointLane 1) =
        .ok (some (optimizerCall (coldPrepared 1 1))) :=
  ⟨by decide,
    (C9_short_path_cycle (scenarioEnv true [3]) 1 (coldNode onePointLane 1) onePointLane
      (measured 1) defaultEgo {} (coldPrepared 1 1) rfl rfl rfl rfl rfl (by decide)).1⟩

/-! ## The state machine (C10) -/

theorem objectsCallback_frame (env : Env) (s : SpeedPlannerNode) (msg : DetectedObjectArray) :
    (objectsCallback env s msg).ego_vehicle_ptr_ = s.ego_vehicle_ptr_ ∧
      (objectsCallback env s msg).previous_trajectory_ = s.previous_trajectory_ ∧
      (objectsCallback env s msg).isInitialize_ = s.isInitialize_ := by
  unfold objectsCallback
  split
  · exact ⟨rfl, rfl, rfl⟩
  · split
    · exact ⟨rfl, rfl, rfl⟩
    · split <;> exact ⟨rfl, rfl, rfl⟩

theorem dispatch_flag (env : Env) (s s1 : SpeedPlannerNode) (e : Event) (out : List Output)
    (h : dispatch env s e = .ok (s1, out)) :
    s1.ego_vehicle_ptr_ = s.ego_vehicle_ptr_ ∧
      (s.isInitialize_ = true → s1.isInitialize_ = true) ∧
      (s1.previous_trajectory_.isSome = true →
        s.previous_trajectory_.isSome = true ∨ s1.isInitialize_ = true) ∧
      (s1.isInitialize_ = true → s.isInitialize_ = true ∨
        ((∃ u, e = .timer u) ∧ s.in_lane_ptr_.isSome = true ∧ s.in_twist_ptr_.isSome = true ∧
          s.in_pose_ptr_.isSome = true)) ∧
      ((∃ u, e = .timer u) → s.in_lane_ptr_.isSome = true → s.in_twist_ptr_.isSome = true →
        s.in_pose_ptr_.isSome = true → s.ego_vehicle_ptr_.isSome = true →
        s1.isInitialize_ = true) := by
  cases e with
  | waypoints msg =>
    simp only [dispatch, waypointsCallback] at h
    injection h with h; injection h with h1 h2; subst h1
    simp only [true_and]
    tauto
  | currentPose msg =>
    simp only [dispatch, currentPoseCallback] at h
    injection h with h; injection h with h1 h2; subst h1
    simp only [true_and]
    tauto
  | currentVelocity msg =>
    simp only [dispatch, currentVelocityCallback] at h
    injection h with h; injection h with h1 h2; subst h1
    simp only [true_and]
    tauto
  | currentStatus msg =>
    simp only [dispatch, currentStatusCallback] at h
    injection h with h; injection h with h1 h2; subst h1
    simp only [true_and]
    tauto
  | objects msg =>
    simp only [dispatch] at h
    injection h with h; injection h with h1 h2; subst h1
    obtain ⟨h1, h2, h3⟩ := objectsCallback_frame env s msg
    rw [h1, h2, h3]
    simp only [true_and]
    tauto
  | timer u =>
    simp only [dispatch] at h
    rcases timerCallback_cases env u s s1 out h with ⟨hs, -, hmiss⟩ | hrun
    · subst hs
      refine ⟨rfl, id, Or.inl, Or.inl, ?_⟩
      intro _ h1 h2 h3 h4
      rcases hmiss with h | h | h | h <;> simp [h] at h1 h2 h3 h4
    · obtain ⟨lane, twist, ego, pose, p, hl, ht, he, hp, -, hres⟩ := hrun
      rcases hres with ⟨-, hs1, -⟩ | ⟨-, t, hs1⟩ <;> subst hs1 <;> simp [hl, ht, hp]

theorem spin_steady (env : Env) :
    ∀ (events : List Event) (s0 s : SpeedPlannerNode) (out : List Output),
      Steady s0 → spin env s0 events = .ok (s, out) → Steady s
  | [], s0, s, out, h0, h => by
    simp only [spin] at h
    injection h with h; injection h with h1 h2
    subst h1
    exact h0
  | e :: es, s0, s, out, h0, h => by
    simp only [spin] at h
    rcases hd : dispatch env s0 e with f | ⟨s1, out1⟩
    · simp [hd] at h
    · simp only [hd] at h
      rcases hs : spin env s1 es with f | ⟨s2, out2⟩
      · simp [hs] at h
      · simp only [hs] at h
        injection h with h; injection h with h1 h2
        subst h1
        obtain ⟨hego, hmono, hprev, -, -⟩ := dispatch_flag env s0 s1 e out1 hd
        refine spin_steady env es s1 s2 out2 ⟨by rw [hego]; exact h0.1, fun hp => ?_⟩ hs
        rcases hprev hp with h | h
        · exact hmono (h0.2 h)
        · exact h

/-- Counterexample to C10: on the freshly constructed node, a lane, a pose and
a velocity arrive and the timer fires; the solve fails, nothing is published and
no plan is stored, yet `isInitialize_` is true afterwards. The next cycle then
takes the warm-start branch with a `v0` that was not read from a stored plan:
it hands the optimizer the indeterminate 9 and `a0 = (9 - 7) / 0.1 = 20`. -/
theorem C10_counterexample :
    (spin (scenarioEnv false []) (newSpeedPlannerNode {} 0) (startupQueue 7)).map
        (fun r => (r.1.isInitialize_, r.1.previous_trajectory_, r.2)) =
        .ok (true, none, []) ∧
      ((spin (scenarioEnv false []) (newSpeedPlannerNode {} 0) (startupQueue 7)).bind
        (fun r => (optimizerInvocation (scenarioEnv false []) 9 r.1).map
          (Option.map (fun call => (call.v0, call.a0))))) = .ok (some (9, 20)) := by
  have hrun : spin (scenarioEnv false []) (newSpeedPlannerNode {} 0) (startupQueue 7) =
      .ok ({ coldNode onePointLane 1 with isInitialize_ := true, previousVelocity_ := 7 },
        []) := by
    simp only [startupQueue, spin, dispatch]
    rw [show currentVelocityCallback (currentPoseCallback
        (waypointsCallback (newSpeedPlannerNode {} 0) onePointLane) {}) (measured 1) =
        coldNode onePointLane 1 from rfl]
    rw [timerCallback_eq (scenarioEnv false []) 7 (coldNode onePointLane 1) onePointLane
      (measured 1) defaultEgo {} (coldPrepared 1 7) rfl rfl rfl rfl rfl]
    rfl
  constructor
  · rw [hrun]
    rfl
  · rw [hrun]
    norm_num [Except.bind, optimizerInvocation, coldNode, currentVelocityCallback,
      currentPoseCallback, waypointsCallback, newSpeedPlannerNode, prepare, initialVelocity,
      initialAcceleration, Except.map, optimizerCall]

/-- C10, amended: over every queue of callbacks run from the freshly
constructed node, a stored previous plan implies `isInitialize_` (not
conversely). For the next callback from such a node: `isInitialize_`, once
true, stays true; it turns true only in a timer cycle that finds the lane, the
velocity and the pose present; and every such cycle that returns leaves it
true, whether or not the solve succeeded. -/
theorem C10_state_machine (env : Env) (params : Params) (previousVelocity : ℚ)
    (events : List Event) (s : SpeedPlannerNode) (out : List Output)
    (hrun : spin env (newSpeedPlannerNode params previousVelocity) events = .ok (s, out)) :
    (s.previous_trajectory_.isSome = true → s.isInitialize_ = true) ∧
      ∀ (e : Event) (s1 : SpeedPlannerNode) (out1 : List Output),
        dispatch env s e = .ok (s1, out1) →
        (s.isInitialize_ = true → s1.isInitialize_ = true) ∧
        (s1.isInitialize_ = true → s.isInitialize_ = true ∨
          ((∃ u, e = .timer u) ∧ s.in_lane_ptr_.isSome = true ∧
            s.in_twist_ptr_.isSome = true ∧ s.in_pose_ptr_.isSome = true)) ∧
        ((∃ u, e = .timer u) → s.in_lane_ptr_.isSome = true →
          s.in_twist_ptr_.isSome = true → s.in_pose_ptr_.isSome = true →
          s1.isInitialize_ = true) := by
  have hsteady : Steady s :=
    spin_steady env events (newSpeedPlannerNode params previousVelocity) s out
      ⟨rfl, fun h => by simp [newSpeedPlannerNode] at h⟩ hrun
  refine ⟨hsteady.2, fun e s1 out1 hd => ?_⟩
  obtain ⟨-, hmono, -, honly, hset⟩ := dispatch_flag env s s1 e out1 hd
  exact ⟨hmono, honly, fun ht h1 h2 h3 => hset ht h1 h2 h3 hsteady.1⟩

/-- Witness of C10, amended: the startup queue with a failing solve. -/
theorem C10_state_machine_witness :
    spin (scenarioEnv false []) (newSpeedPlannerNode {} 0) (startupQueue 7) =
        .ok ({ coldNode onePointLane 1 with isInitialize_ := true, previousVelocity_ := 7 },
          []) ∧
      (({ coldNode onePointLane 1 with isInitialize_ := true, previousVelocity_ := 7 } :
          SpeedPlannerNode).previous_trajectory_.isSome = true →
        ({ coldNode onePointLane 1 with isInitialize_ := true, previousVelocity_ := 7 } :
          SpeedPlannerNode).isInitialize_ = true) :=
  have hrun : spin (scenarioEnv false []) (newSpeedPlannerNode {} 0) (startupQueue 7) =
      .ok ({ coldNode onePointLane 1 with isInitialize_ := true, previousVelocity_ := 7 },
        []) := by
    simp only [startupQueue, spin, dispatch]
    rw [show currentVelocityCallback (currentPoseCallback
        (waypointsCallback (newSpeedPlannerNode {} 0) onePointLane) {}) (measured 1) =
        coldNode onePointLane 1 from rfl]
    rw [timerCallback_eq (scenarioEnv false []) 7 (coldNode onePointLane 1) onePointLane
      (measured 1) defaultEgo {} (coldPrepared 1 7) rfl rfl rfl rfl rfl]
    rfl
  ⟨hrun, (C10_state_machine (scenarioEnv false []) {} 0 (startupQueue 7) _ [] hrun).1⟩

end SpeedPlanner
